import Mathlib

/-!
Verification development for the Dashbord repository.

The pipeline (`prepare_data.py`) aggregates raw traffic rows by
(id, begin, end), joins geometry, and emits GeoJSON features plus the
list of distinct time intervals.  The query service (`main.py`) loads
the emitted features and serves time-window filtered views with
min/max statistics.

Modelling conventions:
* pandas timestamps (`pd.to_datetime(..., errors="coerce")`) are modelled
  as `Option Nat` — an abstract, order-isomorphic instant; `NaT` is `none`.
* missing / non-numeric measurement cells (`pd.to_numeric(..., errors="coerce")`
  giving `NaN`) are modelled as `Option ℚ` with `none` for `NaN`.
* Python `float` values inside JSON structures are modelled by a scalar
  type with explicit `nan` / `inf` / `ninf` constructors.
-/

namespace Dashbord

/-- A scalar JSON property value as stored in a feature's `properties`
dict: `null`, a Python `int`, a finite `float`, the non-finite floats
`nan` / `inf` / `-inf`, or a string. -/
inductive PVal where
  | null
  | int (n : ℤ)
  | num (q : ℚ)
  | nan
  | inf
  | ninf
  | str (s : String)
deriving DecidableEq, Repr

/-! ## prepare_data.py — the aggregation pipeline -/

/-- One raw traffic measurement row after the coercion steps of
`prepare_data.py` (lines 72-85): `begin`/`end` parsed with
`pd.to_datetime(errors="coerce")` (`none` = NaT), the four metric columns
parsed with `pd.to_numeric(errors="coerce")` (`none` = NaN).
Field names `begin_`/`end_`/`left_` carry a trailing underscore because
`end` is a Lean keyword. -/
structure TrafficRow where
  id : String
  begin_ : Option Nat
  end_ : Option Nat
  vclass : String
  entered : Option ℚ
  left_ : Option ℚ
  speed : Option ℚ
  speedRelative : Option ℚ
deriving DecidableEq, Repr

/-- A group key of the `groupby(["id", "begin", "end"])`: pandas drops
rows whose key contains NaT, so a key always has concrete instants. -/
abbrev GKey := String × Nat × Nat

/-- Line 87: `traffic["vehicles_row"] = (traffic["entered"] + traffic["left"]) / 2.0`.
NaN propagates through `+` and `/`, hence `none` when either input is missing. -/
def vehicles_row (r : TrafficRow) : Option ℚ :=
  match r.entered, r.left_ with
  | some a, some b => some ((a + b) / 2)
  | _, _ => none

/-- The rows of one `groupby(["id","begin","end"])` group (line 88-90). -/
def groupRows (rows : List TrafficRow) (k : GKey) : List TrafficRow :=
  rows.filter (fun r => r.id == k.1 && r.begin_ == some k.2.1 && r.end_ == some k.2.2)

/-- Line 90-91: `vehicles=("vehicles_row", "sum")` — pandas `sum` skips NaN
(and an all-NaN group sums to `0.0`). -/
def totals_vehicles (rows : List TrafficRow) (k : GKey) : ℚ :=
  ((groupRows rows k).filterMap vehicles_row).sum

/-- Line 92: `np.nansum(s * vehicles_row)` — a row contributes
`speed * vehicles_row` when both are present and `0` otherwise
(NaN products are skipped by `nansum`). -/
def w_speed_num (rows : List TrafficRow) (k : GKey) : ℚ :=
  ((groupRows rows k).map (fun r =>
    match r.speed, vehicles_row r with
    | some s, some w => s * w
    | _, _ => 0)).sum

/-- Line 93: the same weighted numerator for `speedRelative`. -/
def w_sprel_num (rows : List TrafficRow) (k : GKey) : ℚ :=
  ((groupRows rows k).map (fun r =>
    match r.speedRelative, vehicles_row r with
    | some s, some w => s * w
    | _, _ => 0)).sum

/-- Line 94: `w_den=("vehicles_row", "sum")` — identical to `totals_vehicles`. -/
def w_den (rows : List TrafficRow) (k : GKey) : ℚ :=
  ((groupRows rows k).filterMap vehicles_row).sum

/-- Line 96: `np.where(totals["w_den"] > 0, w_speed_num / w_den, np.nan)`. -/
def totals_speed (rows : List TrafficRow) (k : GKey) : Option ℚ :=
  if 0 < w_den rows k then some (w_speed_num rows k / w_den rows k) else none

/-- Line 97: the same for `speedRelative`. -/
def totals_speedRelative (rows : List TrafficRow) (k : GKey) : Option ℚ :=
  if 0 < w_den rows k then some (w_sprel_num rows k / w_den rows k) else none

/-- The rows of one group carrying one vehicle class (the cells of the
`pivot_table(index=gcols, columns="vclass", ...)`). -/
def classRows (rows : List TrafficRow) (k : GKey) (c : String) : List TrafficRow :=
  (groupRows rows k).filter (fun r => r.vclass == c)

/-- Line 100: `class_counts = pivot_table(..., values="vehicles_row",
aggfunc="sum", fill_value=0.0)` — the sum skips NaN and an absent
(group, class) cell is filled with `0.0`. -/
def class_counts (rows : List TrafficRow) (k : GKey) (c : String) : ℚ :=
  ((classRows rows k c).filterMap vehicles_row).sum

/-- Lines 101-102: `w_speed_row = speed * vehicles_row` pivoted with
`aggfunc="sum", fill_value=0.0`. -/
def class_speed_num (rows : List TrafficRow) (k : GKey) (c : String) : ℚ :=
  ((classRows rows k c).map (fun r =>
    match r.speed, vehicles_row r with
    | some s, some w => s * w
    | _, _ => 0)).sum

/-- Line 103: `class_speed = class_speed_num / class_counts.replace({0.0: np.nan})`
— a zero count becomes NaN, so the quotient is NaN (`none`). -/
def class_speed (rows : List TrafficRow) (k : GKey) (c : String) : Option ℚ :=
  if class_counts rows k c = 0 then none
  else some (class_speed_num rows k c / class_counts rows k c)

/-- Whether the pivot tables of lines 100-102 have a column for class
`c`: pandas drops rows whose group key contains NaT, so a column exists
only when `c` is observed on at least one row with both timestamps
parsed.  `class_counts`/`class_speed` model the cells of existing
columns; a class seen only on NaT-keyed rows has no column at all and
`row.get(cls, np.nan)` in the emit loop yields NaN. -/
def hasPivotColumn (rows : List TrafficRow) (c : String) : Bool :=
  rows.any (fun r => r.vclass == c && r.begin_.isSome && r.end_.isSome)

/-- Remove later duplicates, keeping the first occurrence of each element
— the behaviour of pandas `drop_duplicates()`. -/
def dropDuplicates {α : Type} [DecidableEq α] : List α → List α
  | [] => []
  | a :: l => a :: (dropDuplicates l).filter (fun x => x ≠ a)

/-- Line 127: `classes = sorted(traffic["vclass"].dropna().unique().tolist())`.
`vclass` is modelled as always present, so `dropna` is the identity. -/
def classes (rows : List TrafficRow) : List String :=
  List.insertionSort (· ≤ ·) (dropDuplicates (rows.map TrafficRow.vclass))

/-- Decimal rendering of an abstract instant, standing in for
`to_iso_seconds` (line 53-59); no claim depends on the rendered text,
only on which property keys exist alongside it. -/
def isoOfInstant (t : Nat) : String := toString t

/-- Lines 137-151: the `properties` dict of one emitted traffic feature.
`vehicles` comes from a plain sum so it is never NaN; `speed`,
`speedRelative` and the per-class `<c>_s` fields are `null` when the
aggregate was NaN.  For a class with a pivot column the count `<c>` is
the `fill_value=0.0` cell and therefore always a number; for a class
with no pivot column (observed only on NaT-keyed rows)
`row.get(cls, np.nan)` and `row.get(cls + "_s", np.nan)` yield NaN, so
both fields are `null`. -/
def featProps (rows : List TrafficRow) (k : GKey) : List (String × PVal) :=
  [("id", PVal.str k.1),
   ("begin", PVal.str (isoOfInstant k.2.1)),
   ("end", PVal.str (isoOfInstant k.2.2)),
   ("vehicles", PVal.num (totals_vehicles rows k)),
   ("speed", match totals_speed rows k with | some q => PVal.num q | none => PVal.null),
   ("speedRelative", match totals_speedRelative rows k with | some q => PVal.num q | none => PVal.null)]
  ++ (classes rows).flatMap (fun c =>
    if hasPivotColumn rows c then
      [(c, PVal.num (class_counts rows k c)),
       (c ++ "_s", match class_speed rows k c with | some q => PVal.num q | none => PVal.null)]
    else
      [(c, PVal.null), (c ++ "_s", PVal.null)])

/-- The valid (begin, end) pairs of the raw traffic rows — line 157's
`traffic[["begin", "end"]].dropna()`. -/
def validPairs (rows : List TrafficRow) : List (Nat × Nat) :=
  rows.filterMap (fun r =>
    match r.begin_, r.end_ with
    | some b, some e => some (b, e)
    | _, _ => none)

/-- Ascending order on (begin, end) pairs: by `begin`, ties by `end` —
the order of `sort_values(["begin", "end"])`. -/
def pairLe (a b : Nat × Nat) : Prop :=
  a.1 < b.1 ∨ (a.1 = b.1 ∧ a.2 ≤ b.2)

instance : DecidableRel pairLe := fun a b => by
  unfold pairLe; infer_instance

instance : IsTotal (Nat × Nat) pairLe := by
  constructor; intro a b; unfold pairLe; omega

instance : IsTrans (Nat × Nat) pairLe := by
  constructor; intro a b c; unfold pairLe; omega

instance : IsAntisymm (Nat × Nat) pairLe := by
  constructor
  intro a b h h'
  unfold pairLe at h h'
  have : a.1 = b.1 ∧ a.2 = b.2 := by omega
  exact Prod.ext this.1 this.2

/-- Line 157: `uni = traffic[["begin","end"]].dropna().drop_duplicates().sort_values(["begin","end"])`. -/
def extract_intervals (rows : List TrafficRow) : List (Nat × Nat) :=
  List.insertionSort pairLe (dropDuplicates (validPairs rows))

/-! ## main.py — the interval query service -/

/-- A parsed naive datetime at second precision — the result of
`datetime.fromisoformat` on the pipeline's second-precision timestamps. -/
structure DT where
  year : Nat
  month : Nat
  day : Nat
  hour : Nat
  minute : Nat
  second : Nat
deriving DecidableEq, Repr

/-- Chronological encoding of a `DT`; order and equality of in-range
datetimes coincide with order and equality of their encodings. -/
def DT.val (t : DT) : Nat :=
  ((((t.year * 13 + t.month) * 32 + t.day) * 24 + t.hour) * 60 + t.minute) * 60 + t.second

/-- The numeric value of a decimal digit character, `none` otherwise. -/
def digit? (c : Char) : Option Nat :=
  if c.isDigit then some (c.toNat - 48) else none

/-- Two decimal digit characters to a number. -/
def parse2 (a b : Char) : Option Nat :=
  match digit? a, digit? b with
  | some x, some y => some (10 * x + y)
  | _, _ => none

/-- Four decimal digit characters to a number. -/
def parse4 (a b c d : Char) : Option Nat :=
  match digit? a, digit? b, digit? c, digit? d with
  | some x, some y, some z, some w => some (1000 * x + 100 * y + 10 * z + w)
  | _, _, _, _ => none

/-- Validity check on parsed datetime fields, as `datetime.fromisoformat`
rejects out-of-range components. -/
def fieldsOk (y mo d h mi s : Nat) : Bool :=
  1 ≤ y && 1 ≤ mo && mo ≤ 12 && 1 ≤ d && d ≤ 31 && h ≤ 23 && mi ≤ 59 && s ≤ 59

/-- Assemble a `DT` from the four digit groups, checking ranges. -/
def mkDT (y1 y2 y3 y4 m1 m2 d1 d2 h1 h2 n1 n2 s1 s2 : Char) : Option DT :=
  match parse4 y1 y2 y3 y4, parse2 m1 m2, parse2 d1 d2,
        parse2 h1 h2, parse2 n1 n2, parse2 s1 s2 with
  | some y, some mo, some d, some h, some mi, some s =>
      if fieldsOk y mo d h mi s then some ⟨y, mo, d, h, mi, s⟩ else none
  | _, _, _, _, _, _ => none

/-- Modelled from the spec: `datetime.fromisoformat` (Python standard
library, not part of this repository; Python ≥ 3.11 per the spec's
"trailing `Z` accepted as UTC marker"), restricted to the format the
spec names — `YYYY-MM-DDTHH:MM:SS` at second precision with an optional
trailing `Z`.  The `Z` marks UTC; the data's timestamps are naive, so
the model keeps the same clock fields. -/
def fromiso : List Char → Option DT
  | [y1, y2, y3, y4, '-', m1, m2, '-', d1, d2, 'T',
     h1, h2, ':', n1, n2, ':', s1, s2] =>
      mkDT y1 y2 y3 y4 m1 m2 d1 d2 h1 h2 n1 n2 s1 s2
  | [y1, y2, y3, y4, '-', m1, m2, '-', d1, d2, 'T',
     h1, h2, ':', n1, n2, ':', s1, s2, 'Z'] =>
      mkDT y1 y2 y3 y4 m1 m2 d1 d2 h1 h2 n1 n2 s1 s2
  | _ => none

/-- Lines 49-60 of `main.py`: `parse_iso` — `None`/empty strings are
falsy and give `None`; otherwise every space is replaced by `'T'`
(`dt_str.replace(' ', 'T')`) and the result is handed to
`datetime.fromisoformat`, with parse failures mapped to `None`. -/
def parse_iso (s : Option String) : Option DT :=
  match s with
  | none => none
  | some str =>
      if str = "" then none
      else fromiso (str.data.map (fun c => if c = ' ' then 'T' else c))

/-- A GeoJSON feature as the query service sees it: its `properties` dict. -/
structure Feature where
  properties : List (String × PVal)
deriving DecidableEq, Repr

/-- `p.get(key)` when the stored value is a string, else `None`
(the pipeline stores `begin`/`end` as ISO strings or `null`). -/
def getStr (f : Feature) (key : String) : Option String :=
  match f.properties.lookup key with
  | some (PVal.str s) => some s
  | _ => none

/-- Lines 63-79 of `main.py`: `feature_in_range`.  A feature missing
either parsed bound is excluded; `start`/`end` are only tested when
supplied (Python truthiness: a `datetime` is always truthy). -/
def feature_in_range (f : Feature) (start : Option DT) (end_ : Option DT) : Bool :=
  match parse_iso (getStr f "begin"), parse_iso (getStr f "end") with
  | some b, some e =>
      if Option.any (fun s => e.val < s.val) start then false
      else if Option.any (fun t => t.val < b.val) end_ then false
      else true
  | _, _ => false

/-- The `{'min': ..., 'max': ...}` result dict of `compute_min_max`. -/
structure MinMaxR where
  min : Option ℚ
  max : Option ℚ
deriving DecidableEq, Repr

/-- The values `compute_min_max` keeps for a variable: numeric
(`isinstance(v, (int, float))`) and neither NaN nor infinite. -/
def validValues (features : List Feature) (var : String) : List ℚ :=
  features.filterMap (fun ft =>
    match ft.properties.lookup var with
    | some (PVal.int n) => some ((n : ℚ))
    | some (PVal.num q) => some q
    | _ => none)

/-- Lines 82-96 of `main.py`: `compute_min_max` — collect the valid
values, return `{None, None}` on an empty list and otherwise Python's
`min`/`max`, i.e. left folds over the first element. -/
def compute_min_max (features : List Feature) (var : String) : MinMaxR :=
  match validValues features var with
  | [] => ⟨none, none⟩
  | v :: vs => ⟨some (vs.foldl min v), some (vs.foldl max v)⟩

/-- Numeric-and-finite test of lines 113: `isinstance(v, (int, float))
and not (isinstance(v, float) and (isnan(v) or isinf(v)))`. -/
def isNumericFinite : PVal → Bool
  | PVal.int _ => true
  | PVal.num _ => true
  | _ => false

/-- Lines 99-116 of `main.py`: `list_variables` — keep the numeric
finite property names outside `skip = {'id', 'begin', 'end'}`, then
`out.sort()` (ascending, stable). -/
def list_variables (f : Feature) : List String :=
  let skip : List String := ["id", "begin", "end"]
  let out := f.properties.filterMap (fun kv =>
    if kv.1 ∈ skip then none
    else if isNumericFinite kv.2 then some kv.1 else none)
  List.insertionSort (· ≤ ·) out

/-- Lines 199-206 of `main.py` (`api_traffic`): parse the query bounds;
filter by `feature_in_range` only when at least one bound parsed
(`if (dt_start or dt_end)`), else serve all features unchanged. -/
def api_traffic_feats (allFeats : List Feature) (start : Option String) (end_ : Option String) :
    List Feature :=
  let dtStart := parse_iso start
  let dtEnd := parse_iso end_
  if dtStart.isSome || dtEnd.isSome then
    allFeats.filter (fun ft => feature_in_range ft dtStart dtEnd)
  else allFeats

/-- Lines 162-164 of `main.py`: `GLOBAL_STATS = {var: compute_min_max(ALL, var)
for var in TRAFFIC_VARS}`, as an association list in `vars` order. -/
def GLOBAL_STATS (gvars : List String) (allFeats : List Feature) : List (String × MinMaxR) :=
  gvars.map (fun v => (v, compute_min_max allFeats v))

/-- Lines 241-248 of `main.py` (`api_traffic_minmax`): with scope
`'global'` or no parsed bound, `GLOBAL_STATS.get(var) or
compute_min_max(ALL, var)` (a present stats dict is truthy); otherwise
compute on the filtered subset. -/
def api_traffic_minmax (allFeats : List Feature) (gvars : List String) (var : String)
    (start : Option String) (end_ : Option String) (scope : String) : MinMaxR :=
  let dtStart := parse_iso start
  let dtEnd := parse_iso end_
  if scope = "global" || (!dtStart.isSome && !dtEnd.isSome) then
    match (GLOBAL_STATS gvars allFeats).lookup var with
    | some s => s
    | none => compute_min_max allFeats var
  else
    compute_min_max (allFeats.filter (fun ft => feature_in_range ft dtStart dtEnd)) var

/-! ## main.py — sanitize_json over nested JSON values -/

mutual
/-- A nested JSON-like Python value: scalar, dict or list.  Non-finite
floats are the explicit constructors `jnan` / `jinf` / `jninf`. -/
inductive JVal where
  | jnull
  | jbool (b : Bool)
  | jint (n : ℤ)
  | jnum (q : ℚ)
  | jnan
  | jinf
  | jninf
  | jstr (s : String)
  | jobj (o : JObj)
  | jarr (a : JArr)

/-- A Python dict: ordered key/value pairs. -/
inductive JObj where
  | nil
  | cons (key : String) (v : JVal) (rest : JObj)

/-- A Python list. -/
inductive JArr where
  | nil
  | cons (v : JVal) (rest : JArr)
end

mutual
/-- Lines 33-46 of `main.py`: `sanitize_json` — a float that is NaN or
infinite becomes `None`, a finite float is kept, dicts and lists are
rebuilt with sanitized members, every other scalar is returned as-is. -/
def sanitize_json : JVal → JVal
  | JVal.jnum q => JVal.jnum q
  | JVal.jnan => JVal.jnull
  | JVal.jinf => JVal.jnull
  | JVal.jninf => JVal.jnull
  | JVal.jobj o => JVal.jobj (sanitizeObj o)
  | JVal.jarr a => JVal.jarr (sanitizeArr a)
  | v => v

/-- `{k: sanitize_json(v) for k, v in obj.items()}`. -/
def sanitizeObj : JObj → JObj
  | JObj.nil => JObj.nil
  | JObj.cons k v rest => JObj.cons k (sanitize_json v) (sanitizeObj rest)

/-- `[sanitize_json(x) for x in obj]`. -/
def sanitizeArr : JArr → JArr
  | JArr.nil => JArr.nil
  | JArr.cons v rest => JArr.cons (sanitize_json v) (sanitizeArr rest)
end

mutual
/-- Whether a JSON value contains a NaN or infinite float anywhere. -/
def hasBadFloat : JVal → Bool
  | JVal.jnan => true
  | JVal.jinf => true
  | JVal.jninf => true
  | JVal.jobj o => hasBadFloatObj o
  | JVal.jarr a => hasBadFloatArr a
  | _ => false

/-- Whether any value of a dict contains a NaN or infinite float. -/
def hasBadFloatObj : JObj → Bool
  | JObj.nil => false
  | JObj.cons _ v rest => hasBadFloat v || hasBadFloatObj rest

/-- Whether any member of a list contains a NaN or infinite float. -/
def hasBadFloatArr : JArr → Bool
  | JArr.nil => false
  | JArr.cons v rest => hasBadFloat v || hasBadFloatArr rest
end

/-- The key list of a JSON dict. -/
def objKeys : JObj → List String
  | JObj.nil => []
  | JObj.cons k _ rest => k :: objKeys rest

/-- The length of a JSON list. -/
def arrLen : JArr → Nat
  | JArr.nil => 0
  | JArr.cons _ rest => arrLen rest + 1

/-! ## Claim-side definitions, the ISO renderer and example data -/

/-- The interval filter exactly as claim C2 words it: a feature lacking
both bounds is excluded; otherwise it is excluded only when (start
given and the feature's end given and `feature.end < start`) or (end
given and the feature's begin given and `feature.begin > end`); every
other feature — including one with a single bound — is included. -/
def claimC2Included (f : Feature) (start : Option DT) (end_ : Option DT) : Bool :=
  let b := parse_iso (getStr f "begin")
  let e := parse_iso (getStr f "end")
  if b.isNone && e.isNone then false
  else if Option.any (fun s => Option.any (fun ev => ev.val < s.val) e) start then false
  else if Option.any (fun t => Option.any (fun bv => t.val < bv.val) b) end_ then false
  else true

/-- The interval filter as amended: a feature lacking `begin` or `end`
(either one) is excluded; a feature with both bounds is excluded exactly
when (start given and `feature.end < start`) or (end given and
`feature.begin > end`), and included otherwise. -/
def amendedC2Included (f : Feature) (start : Option DT) (end_ : Option DT) : Bool :=
  match parse_iso (getStr f "begin"), parse_iso (getStr f "end") with
  | some b, some e =>
      !(Option.any (fun s => e.val < s.val) start) && !(Option.any (fun t => t.val < b.val) end_)
  | _, _ => false

/-- A feature carrying only a `begin` bound. -/
def exFeatC2 : Feature := ⟨[("begin", PVal.str "2024-01-01T08:00:00")]⟩

/-- A feature whose only property is a numeric `start`. -/
def exFeatC7 : Feature := ⟨[("start", PVal.num 5)]⟩

/-- `list_variables` exactly as claim C7 words it: numeric property
names outside the fixed identifier/time key set
`{id, begin, end, start}`, sorted alphabetically. -/
def claimC7Variables (f : Feature) : List String :=
  let skip : List String := ["id", "begin", "end", "start"]
  let out := f.properties.filterMap (fun kv =>
    if kv.1 ∈ skip then none
    else if isNumericFinite kv.2 then some kv.1 else none)
  List.insertionSort (· ≤ ·) out

/-- Raw rows with a duplicated pair, an out-of-order pair and a
half-missing pair, exercising dedup, sort and the NaT drop. -/
def exRowsC4 : List TrafficRow :=
  [⟨"a", some 2, some 3, "car", none, none, none, none⟩,
   ⟨"b", some 1, some 2, "car", none, none, none, none⟩,
   ⟨"c", some 2, some 3, "bus", none, none, none, none⟩,
   ⟨"d", none, some 5, "car", none, none, none, none⟩]

/-- The two raw rows of the spec's example scenario: same segment and
interval, a car row (entered 10, left 8, speed 40) and a truck row
(entered 2, left 2, speed 30). -/
def exRowsC1 : List TrafficRow :=
  [⟨"R1", some 800, some 815, "car", some 10, some 8, some 40, none⟩,
   ⟨"R1", some 800, some 815, "truck", some 2, some 2, some 30, none⟩]

/-- The example's group key. -/
def exKeyC1 : GKey := ("R1", 800, 815)

/-- Two raw rows on different segments: `car` is observed only on `R1`
and `truck` only on `R2`, so each group misses one globally-observed class. -/
def exRowsC3 : List TrafficRow :=
  [⟨"R1", some 800, some 815, "car", some 10, some 8, some 40, none⟩,
   ⟨"R2", some 800, some 815, "truck", some 2, some 2, some 30, none⟩]

/-- `exRowsC3` extended with a `ghost` row whose `begin` failed to
parse: `ghost` appears in the global class list but in no pivot column. -/
def exRowsC3g : List TrafficRow :=
  [⟨"R1", some 800, some 815, "car", some 10, some 8, some 40, none⟩,
   ⟨"R2", some 800, some 815, "truck", some 2, some 2, some 30, none⟩,
   ⟨"R1", none, some 815, "ghost", some 1, some 1, some 10, none⟩]

/-- The decimal digit character for `n < 10`. -/
def digitChar (n : Nat) : Char := Char.ofNat (48 + n)

/-- Two-digit zero-padded decimal rendering, as characters. -/
def pad2c (n : Nat) : List Char := [digitChar (n / 10), digitChar (n % 10)]

/-- Four-digit zero-padded decimal rendering, as characters. -/
def pad4c (n : Nat) : List Char :=
  [digitChar (n / 1000), digitChar (n / 100 % 10), digitChar (n / 10 % 10), digitChar (n % 10)]

/-- An ISO-style datetime string `YYYY-MM-DD<sep>HH:MM:SS[Z]` with a
chosen date/time separator and optional trailing UTC marker — the query
strings claim C8 ranges over. -/
def isoRender (t : DT) (sep : Char) (z : Bool) : String :=
  String.mk (pad4c t.year ++ '-' :: (pad2c t.month ++ '-' :: (pad2c t.day
    ++ sep :: (pad2c t.hour ++ ':' :: (pad2c t.minute ++ ':' :: (pad2c t.second
    ++ (if z then ['Z'] else [])))))))

/-- In-range datetime components. -/
def validDT (t : DT) : Prop :=
  1 ≤ t.year ∧ t.year ≤ 9999 ∧ 1 ≤ t.month ∧ t.month ≤ 12 ∧ 1 ≤ t.day ∧ t.day ≤ 31
    ∧ t.hour ≤ 23 ∧ t.minute ≤ 59 ∧ t.second ≤ 59

mutual
/-- The output of `sanitize_json` never contains a NaN or infinite float. -/
theorem sanitize_json_noBad : ∀ v : JVal, hasBadFloat (sanitize_json v) = false
  | JVal.jnull => rfl
  | JVal.jbool _ => rfl
  | JVal.jint _ => rfl
  | JVal.jnum _ => rfl
  | JVal.jnan => rfl
  | JVal.jinf => rfl
  | JVal.jninf => rfl
  | JVal.jstr _ => rfl
  | JVal.jobj o => by
      simp only [sanitize_json, hasBadFloat]
      exact sanitizeObj_noBad o
  | JVal.jarr a => by
      simp only [sanitize_json, hasBadFloat]
      exact sanitizeArr_noBad a

/-- Dict version of `sanitize_json_noBad`. -/
theorem sanitizeObj_noBad : ∀ o : JObj, hasBadFloatObj (sanitizeObj o) = false
  | JObj.nil => rfl
  | JObj.cons _ v rest => by
      simp only [sanitizeObj, hasBadFloatObj, Bool.or_eq_false_iff]
      exact ⟨sanitize_json_noBad v, sanitizeObj_noBad rest⟩

/-- List version of `sanitize_json_noBad`. -/
theorem sanitizeArr_noBad : ∀ a : JArr, hasBadFloatArr (sanitizeArr a) = false
  | JArr.nil => rfl
  | JArr.cons v rest => by
      simp only [sanitizeArr, hasBadFloatArr, Bool.or_eq_false_iff]
      exact ⟨sanitize_json_noBad v, sanitizeArr_noBad rest⟩
end

mutual
/-- A value holding no NaN/infinite float is returned unchanged. -/
theorem sanitize_json_clean_id :
    ∀ v : JVal, hasBadFloat v = false → sanitize_json v = v
  | JVal.jnull, _ => rfl
  | JVal.jbool _, _ => rfl
  | JVal.jint _, _ => rfl
  | JVal.jnum _, _ => rfl
  | JVal.jstr _, _ => rfl
  | JVal.jobj o, h => by
      simp only [hasBadFloat] at h
      simp only [sanitize_json]
      rw [sanitizeObj_clean_id o h]
  | JVal.jarr a, h => by
      simp only [hasBadFloat] at h
      simp only [sanitize_json]
      rw [sanitizeArr_clean_id a h]

/-- Dict version of `sanitize_json_clean_id`. -/
theorem sanitizeObj_clean_id :
    ∀ o : JObj, hasBadFloatObj o = false → sanitizeObj o = o
  | JObj.nil, _ => rfl
  | JObj.cons k v rest, h => by
      simp only [hasBadFloatObj, Bool.or_eq_false_iff] at h
      simp only [sanitizeObj]
      rw [sanitize_json_clean_id v h.1, sanitizeObj_clean_id rest h.2]

/-- List version of `sanitize_json_clean_id`. -/
theorem sanitizeArr_clean_id :
    ∀ a : JArr, hasBadFloatArr a = false → sanitizeArr a = a
  | JArr.nil, _ => rfl
  | JArr.cons v rest, h => by
      simp only [hasBadFloatArr, Bool.or_eq_false_iff] at h
      simp only [sanitizeArr]
      rw [sanitize_json_clean_id v h.1, sanitizeArr_clean_id rest h.2]
end

/-- Sanitization preserves the key list of every dict. -/
theorem sanitizeObj_keys : ∀ o : JObj, objKeys (sanitizeObj o) = objKeys o
  | JObj.nil => rfl
  | JObj.cons _ _ rest => by
      simp only [sanitizeObj, objKeys]
      rw [sanitizeObj_keys rest]

/-- Sanitization preserves the length of every list. -/
theorem sanitizeArr_len : ∀ a : JArr, arrLen (sanitizeArr a) = arrLen a
  | JArr.nil => rfl
  | JArr.cons _ rest => by
      simp only [sanitizeArr, arrLen]
      rw [sanitizeArr_len rest]

/-! ## Shared helper lemmas -/

theorem mem_dropDuplicates {α : Type} [DecidableEq α] (a : α) :
    ∀ l : List α, a ∈ dropDuplicates l ↔ a ∈ l
  | [] => Iff.rfl
  | b :: l => by
    simp only [dropDuplicates, List.mem_cons, List.mem_filter,
      mem_dropDuplicates a l, decide_eq_true_eq]
    by_cases hab : a = b
    · simp [hab]
    · simp [hab]

theorem nodup_dropDuplicates {α : Type} [DecidableEq α] :
    ∀ l : List α, (dropDuplicates l).Nodup
  | [] => List.nodup_nil
  | b :: l => by
    simp only [dropDuplicates, List.nodup_cons]
    constructor
    · intro hmem
      exact (of_decide_eq_true (List.mem_filter.1 hmem).2) rfl
    · exact (nodup_dropDuplicates l).filter _

theorem lookup_map_eval {α β : Type} [DecidableEq α] (f : α → β) (x : α) :
    ∀ l : List α, x ∈ l → (l.map (fun v => (v, f v))).lookup x = some (f x)
  | [], h => absurd h (List.not_mem_nil x)
  | a :: l, h => by
    simp only [List.map_cons, List.lookup_cons]
    by_cases hxa : x = a
    · subst hxa; simp
    · have : (x == a) = false := beq_eq_false_iff_ne.2 hxa
      rw [this]
      exact lookup_map_eval f x l ((List.mem_cons.1 h).resolve_left hxa)

/-! ## Claim theorems -/

/-- C5: for every (possibly nested) JSON-like value built from dicts,
lists and scalars, the sanitized result contains no NaN and no infinite
floating-point value; every other leaf value is unchanged (a value
already free of such floats is returned identically), and the dict/list
structure (keys and lengths) is preserved. -/
theorem claim_C5_sanitize (v : JVal) :
    hasBadFloat (sanitize_json v) = false
    ∧ (hasBadFloat v = false → sanitize_json v = v)
    ∧ (∀ o : JObj, objKeys (sanitizeObj o) = objKeys o)
    ∧ (∀ a : JArr, arrLen (sanitizeArr a) = arrLen a) :=
  ⟨sanitize_json_noBad v, sanitize_json_clean_id v, sanitizeObj_keys, sanitizeArr_len⟩

/-- Witness for C5 at a concrete nested value. -/
theorem claim_C5_sanitize_witness :
    sanitize_json (JVal.jarr (JArr.cons (JVal.jint 3) JArr.nil))
      = JVal.jarr (JArr.cons (JVal.jint 3) JArr.nil) :=
  (claim_C5_sanitize (JVal.jarr (JArr.cons (JVal.jint 3) JArr.nil))).2.1 rfl

/-- C9: filtering with neither start nor end supplied returns exactly
the input feature list unchanged — `api_traffic` short-circuits past the
per-feature overlap test when both parsed bounds are absent. -/
theorem claim_C9_unbounded_identity (feats : List Feature) :
    api_traffic_feats feats none none = feats := rfl

/-- C6: `compute_min_max` considers only numeric, non-NaN, non-infinite
values; it returns `{min := none, max := none}` exactly on an empty
feature list or when no valid value exists, and otherwise the minimum
and maximum of the valid values. -/
theorem claim_C6_min_max (features : List Feature) (var : String) :
    compute_min_max features var
      = ⟨(validValues features var).min?, (validValues features var).max?⟩
    ∧ compute_min_max [] var = ⟨none, none⟩
    ∧ (compute_min_max features var = ⟨none, none⟩ ↔ validValues features var = []) := by
  refine ⟨?_, rfl, ?_⟩
  · cases h : validValues features var with
    | nil => simp [compute_min_max, h]
    | cons v vs =>
        simp only [compute_min_max, h, List.min?_cons', List.max?_cons']
  · cases h : validValues features var with
    | nil => simp [compute_min_max, h]
    | cons v vs => simp [compute_min_max, h]

/-- C2 counterexample: a feature with only a `begin` bound and the query
window `[2024-01-01T00:00:00, ∞)`.  The claim includes it (no exclusion
condition fires), but `feature_in_range` returns `false`: the code
excludes every feature lacking either bound, not only those lacking both. -/
theorem claim_C2_counterexample :
    feature_in_range exFeatC2 (some ⟨2024, 1, 1, 0, 0, 0⟩) none = false
    ∧ claimC2Included exFeatC2 (some ⟨2024, 1, 1, 0, 0, 0⟩) none = true := by
  constructor <;> rfl

/-- C2 amended: for every feature and query window the code's filter
agrees with the amended rule — both parsed bounds are required, and the
two exclusion tests are applied only for the window bounds supplied. -/
theorem claim_C2_amended (f : Feature) (start : Option DT) (end_ : Option DT) :
    feature_in_range f start end_ = amendedC2Included f start end_ := by
  unfold feature_in_range amendedC2Included
  cases parse_iso (getStr f "begin") with
  | none => rfl
  | some b =>
      cases parse_iso (getStr f "end") with
      | none => rfl
      | some e =>
          cases h1 : Option.any (fun s => decide (e.val < s.val)) start <;>
            cases h2 : Option.any (fun t => decide (t.val < b.val)) end_ <;>
              simp [h1, h2]

/-- C7 counterexample: on a feature with a numeric property named
`start`, the code returns `["start"]` — its skip set is only
`{id, begin, end}` — while the claim's key set `{id, begin, end, start}`
would return `[]`. -/
theorem claim_C7_counterexample :
    list_variables exFeatC7 = ["start"] ∧ claimC7Variables exFeatC7 = [] := by
  constructor <;> rfl

/-- C7 amended: `list_variables` returns exactly the property names with
a numeric (finite) value, excluding only `{id, begin, end}`, sorted
ascending, and the result is invariant under permuting the property
insertion order. -/
theorem claim_C7_amended (f : Feature) :
    List.Sorted (· ≤ ·) (list_variables f)
    ∧ (∀ k : String, k ∈ list_variables f ↔
        (k ∉ (["id", "begin", "end"] : List String)
          ∧ ∃ v, (k, v) ∈ f.properties ∧ isNumericFinite v = true))
    ∧ (∀ g : Feature, f.properties.Perm g.properties →
        list_variables f = list_variables g) := by
  refine ⟨List.sorted_insertionSort _ _, ?_, ?_⟩
  · intro k
    unfold list_variables
    rw [(List.perm_insertionSort _ _).mem_iff, List.mem_filterMap]
    constructor
    · rintro ⟨⟨k', v⟩, hmem, hval⟩
      by_cases hskip : k' ∈ (["id", "begin", "end"] : List String)
      · simp [hskip] at hval
      · by_cases hnum : isNumericFinite v = true
        · simp only [hskip, if_false, hnum, if_true, Option.some.injEq] at hval
          subst hval
          exact ⟨hskip, v, hmem, hnum⟩
        · simp [hskip, hnum] at hval
    · rintro ⟨hskip, v, hmem, hnum⟩
      exact ⟨(k, v), hmem, by simp [hskip, hnum]⟩
  · intro g hperm
    have hp := hperm.filterMap (fun kv : String × PVal =>
      if kv.1 ∈ (["id", "begin", "end"] : List String) then none
      else if isNumericFinite kv.2 then some kv.1 else none)
    exact List.eq_of_perm_of_sorted
      (((List.perm_insertionSort _ _).trans hp).trans
        (List.perm_insertionSort _ _).symm)
      (List.sorted_insertionSort _ _) (List.sorted_insertionSort _ _)

/-- Witness for the amended C7: two insertion orders of the same
properties produce the same variable list. -/
theorem claim_C7_amended_witness :
    list_variables ⟨[("b", PVal.num 2), ("a", PVal.num 1)]⟩
      = list_variables ⟨[("a", PVal.num 1), ("b", PVal.num 2)]⟩ :=
  (claim_C7_amended ⟨[("b", PVal.num 2), ("a", PVal.num 1)]⟩).2.2
    ⟨[("a", PVal.num 1), ("b", PVal.num 2)]⟩ (List.Perm.swap _ _ _)

/-- C4: the emitted intervals list is exactly the distinct (begin, end)
pairs of the raw traffic rows whose two timestamps parsed, deduplicated
and sorted ascending by begin then end: it is sorted, duplicate-free,
its members are precisely the valid raw pairs, and it is the unique
such list — independent of aggregation or the geometry join. -/
theorem claim_C4_intervals (rows : List TrafficRow) :
    List.Sorted pairLe (extract_intervals rows)
    ∧ (extract_intervals rows).Nodup
    ∧ (∀ p, p ∈ extract_intervals rows ↔ p ∈ validPairs rows)
    ∧ (∀ l, List.Sorted pairLe l → l.Nodup →
        (∀ p, p ∈ l ↔ p ∈ validPairs rows) → l = extract_intervals rows) := by
  have hperm : (extract_intervals rows).Perm (dropDuplicates (validPairs rows)) :=
    List.perm_insertionSort pairLe _
  have hsorted : List.Sorted pairLe (extract_intervals rows) :=
    List.sorted_insertionSort pairLe _
  have hnodup : (extract_intervals rows).Nodup :=
    hperm.nodup_iff.2 (nodup_dropDuplicates _)
  have hmem : ∀ p, p ∈ extract_intervals rows ↔ p ∈ validPairs rows := by
    intro p
    rw [hperm.mem_iff]
    exact mem_dropDuplicates p _
  refine ⟨hsorted, hnodup, hmem, ?_⟩
  intro l hls hln hlm
  have hp : l.Perm (extract_intervals rows) :=
    (List.perm_ext_iff_of_nodup hln hnodup).2 (fun p => (hlm p).trans (hmem p).symm)
  exact List.eq_of_perm_of_sorted hp hls hsorted

/-- Witness for C4: on `exRowsC4` the sorted duplicate-free pair list
`[(1,2), (2,3)]` is forced to coincide with `extract_intervals`. -/
theorem claim_C4_intervals_witness :
    ([((1 : Nat), (2 : Nat)), (2, 3)] : List (Nat × Nat)) = extract_intervals exRowsC4 :=
  (claim_C4_intervals exRowsC4).2.2.2 [(1, 2), (2, 3)]
    (by decide) (by decide)
    (by
      intro p
      show p ∈ [((1 : Nat), (2 : Nat)), (2, 3)] ↔ p ∈ [((2 : Nat), (3 : Nat)), (1, 2), (2, 3)]
      simp only [List.mem_cons, List.not_mem_nil, or_false]
      tauto)

/-- C1: `aggregate_traffic` computes `vehicles` as the group sum of
`(entered + left) / 2`, `speed` as the vehicle-estimate-weighted mean,
and the per-class counts and weighted speeds by the same rule per class;
on the two-row example this gives `vehicles = 11`,
`speed = (40·9 + 30·2)/11`, `car = 9`, `car_s = 40`, `truck = 2`,
`truck_s = 30`.  A row with a missing `speed` contributes nothing to the
weighted numerator. -/
theorem claim_C1_aggregate :
    totals_vehicles exRowsC1 exKeyC1 = 11
    ∧ totals_speed exRowsC1 exKeyC1 = some ((40 * 9 + 30 * 2) / 11)
    ∧ class_counts exRowsC1 exKeyC1 "car" = 9
    ∧ class_speed exRowsC1 exKeyC1 "car" = some 40
    ∧ class_counts exRowsC1 exKeyC1 "truck" = 2
    ∧ class_speed exRowsC1 exKeyC1 "truck" = some 30
    ∧ (∀ (i : String) (b e : Option Nat) (vc : String) (ent lf sr : Option ℚ)
        (rows : List TrafficRow) (k : GKey),
        w_speed_num (⟨i, b, e, vc, ent, lf, none, sr⟩ :: rows) k = w_speed_num rows k) := by
  refine ⟨?_, ?_, ?_, ?_, ?_, ?_, ?_⟩
  case refine_1 | refine_2 | refine_3 | refine_4 | refine_5 | refine_6 =>
    simp [totals_vehicles, totals_speed, w_speed_num, w_den, class_counts,
      class_speed, class_speed_num, classRows, groupRows, exRowsC1, exKeyC1,
      vehicles_row, List.filter_cons, List.filterMap_cons]
    try norm_num
  intro i b e vc ent lf sr rows k
  simp only [w_speed_num, groupRows, List.filter_cons]
  split
  · rw [List.map_cons, List.sum_cons]
    show (0 : ℚ) + _ = _
    rw [zero_add]
  · rfl

theorem classes_exRowsC3 : classes exRowsC3 = ["car", "truck"] := by
  simp [classes, dropDuplicates, exRowsC3, List.insertionSort, List.orderedInsert]
  try decide

/-- C3 counterexample: in the group `("R1", 800, 815)` no `truck` row
exists, yet the emitted `truck` property is the numeric `0.0` coming
from the pivot's `fill_value=0.0` — not the null the claim requires. -/
theorem claim_C3_counterexample :
    ("truck", PVal.num 0) ∈ featProps exRowsC3 ("R1", 800, 815)
    ∧ ("truck", PVal.null) ∉ featProps exRowsC3 ("R1", 800, 815) := by
  constructor <;>
    · simp only [featProps, classes_exRowsC3]
      decide

/-- The per-class key list of one feature's property dict. -/
theorem map_fst_classBlock (rows : List TrafficRow) (k : GKey) (cs : List String) :
    (cs.flatMap (fun c =>
      if hasPivotColumn rows c then
        [(c, PVal.num (class_counts rows k c)),
         (c ++ "_s", match class_speed rows k c with
                     | some q => PVal.num q
                     | none => PVal.null)]
      else
        [(c, PVal.null), (c ++ "_s", PVal.null)])).map Prod.fst
      = cs.flatMap (fun c => [c, c ++ "_s"]) := by
  induction cs with
  | nil => rfl
  | cons c cs ih => cases h : hasPivotColumn rows c <;> simp [h, ih]

/-- C3 amended: every emitted feature carries the same property key
list — one `<class>` and one `<class>_s` key for every class observed
anywhere.  For a class with a pivot column (observed on at least one
row with both timestamps parsed) but zero rows in a given group, the
`<class>` count field is present with the numeric value `0` (not null)
while the `<class>_s` field is present with a null value; for a class
with no pivot column (observed only on rows whose timestamps failed to
parse) both fields are present with a null value. -/
theorem claim_C3_amended :
    (∀ (rows : List TrafficRow) (k₁ k₂ : GKey),
      (featProps rows k₁).map Prod.fst = (featProps rows k₂).map Prod.fst)
    ∧ (∀ (rows : List TrafficRow) (k : GKey) (c : String),
        c ∈ classes rows → hasPivotColumn rows c = true → classRows rows k c = [] →
          (c, PVal.num 0) ∈ featProps rows k
          ∧ (c ++ "_s", PVal.null) ∈ featProps rows k)
    ∧ (∀ (rows : List TrafficRow) (k : GKey) (c : String),
        c ∈ classes rows → hasPivotColumn rows c = false →
          (c, PVal.null) ∈ featProps rows k
          ∧ (c ++ "_s", PVal.null) ∈ featProps rows k) := by
  refine ⟨?_, ?_, ?_⟩
  · intro rows k₁ k₂
    simp only [featProps, List.map_append, map_fst_classBlock, List.map_cons,
      List.map_nil]
  · intro rows k c hc hcol hempty
    have hcount : class_counts rows k c = 0 := by
      simp [class_counts, hempty]
    have hspeed : class_speed rows k c = none := by
      simp [class_speed, hcount]
    constructor
    · refine List.mem_append_right _ (List.mem_flatMap.2 ⟨c, hc, ?_⟩)
      simp [hcol, hcount]
    · refine List.mem_append_right _ (List.mem_flatMap.2 ⟨c, hc, ?_⟩)
      simp [hcol, hspeed]
  · intro rows k c hc hcol
    constructor
    · refine List.mem_append_right _ (List.mem_flatMap.2 ⟨c, hc, ?_⟩)
      simp [hcol]
    · refine List.mem_append_right _ (List.mem_flatMap.2 ⟨c, hc, ?_⟩)
      simp [hcol]

theorem classes_exRowsC3g : classes exRowsC3g = ["car", "ghost", "truck"] := by
  simp [classes, dropDuplicates, exRowsC3g, List.insertionSort, List.orderedInsert]
  try decide

/-- Witness for the amended C3 at the group `("R2", 800, 815)` of
`exRowsC3g`: `car` has a pivot column but no rows there (count numeric
`0`, weighted speed null), while `ghost` — observed only on a NaT-keyed
row — has no pivot column and gets null in both fields. -/
theorem claim_C3_amended_witness :
    ("car", PVal.num 0) ∈ featProps exRowsC3g ("R2", 800, 815)
    ∧ ("car_s", PVal.null) ∈ featProps exRowsC3g ("R2", 800, 815)
    ∧ ("ghost", PVal.null) ∈ featProps exRowsC3g ("R2", 800, 815)
    ∧ ("ghost_s", PVal.null) ∈ featProps exRowsC3g ("R2", 800, 815) := by
  have hc : "car" ∈ classes exRowsC3g := by
    rw [classes_exRowsC3g]; exact List.mem_cons_self _ _
  have hg : "ghost" ∈ classes exRowsC3g := by
    rw [classes_exRowsC3g]
    exact List.mem_cons_of_mem _ (List.mem_cons_self _ _)
  have hcolc : hasPivotColumn exRowsC3g "car" = true := by decide
  have hcolg : hasPivotColumn exRowsC3g "ghost" = false := by decide
  have he : classRows exRowsC3g ("R2", 800, 815) "car" = [] := by decide
  have h1 := claim_C3_amended.2.1 exRowsC3g ("R2", 800, 815) "car" hc hcolc he
  have h2 := claim_C3_amended.2.2 exRowsC3g ("R2", 800, 815) "ghost" hg hcolg
  exact ⟨h1.1, h1.2, h2.1, h2.2⟩

/-- C10: for a variable in the precomputed variable list, the cached
`GLOBAL_STATS` entry equals a fresh `compute_min_max` over the full
feature set, and the minmax endpoint returns exactly that value both
with scope `'global'` and, for any scope, when neither time bound
parses. -/
theorem claim_C10_global_cache (feats : List Feature) (gvars : List String) (var : String)
    (sStr eStr : Option String) (scope : String) (hvar : var ∈ gvars) :
    (GLOBAL_STATS gvars feats).lookup var = some (compute_min_max feats var)
    ∧ api_traffic_minmax feats gvars var sStr eStr "global" = compute_min_max feats var
    ∧ (parse_iso sStr = none → parse_iso eStr = none →
        api_traffic_minmax feats gvars var sStr eStr scope = compute_min_max feats var) := by
  have hlookup : (GLOBAL_STATS gvars feats).lookup var
      = some (compute_min_max feats var) :=
    lookup_map_eval (compute_min_max feats) var gvars hvar
  refine ⟨hlookup, ?_, ?_⟩
  · unfold api_traffic_minmax
    simp [hlookup]
  · intro hs he
    unfold api_traffic_minmax
    simp [hs, he, hlookup]

/-- Witness for C10 with the single-variable list `["vehicles"]`, no
time bounds and scope `'filtered'`. -/
theorem claim_C10_global_cache_witness :
    (GLOBAL_STATS ["vehicles"] []).lookup "vehicles"
      = some (compute_min_max [] "vehicles")
    ∧ api_traffic_minmax [] ["vehicles"] "vehicles" none none "filtered"
      = compute_min_max [] "vehicles" := by
  have h := claim_C10_global_cache [] ["vehicles"] "vehicles" none none "filtered"
    (List.mem_cons_self _ _)
  exact ⟨h.1, h.2.2 rfl rfl⟩

theorem digit?_digitChar (n : Nat) (h : n < 10) : digit? (digitChar n) = some n := by
  interval_cases n <;> rfl

theorem ite_space_digitChar (n : Nat) (h : n < 10) :
    (if digitChar n = ' ' then 'T' else digitChar n) = digitChar n := by
  interval_cases n <;> rfl

theorem digit?_digitChar_mod (m : Nat) : digit? (digitChar (m % 10)) = some (m % 10) :=
  digit?_digitChar _ (Nat.mod_lt _ (by norm_num))

theorem ite_space_digitChar_mod (m : Nat) :
    (if digitChar (m % 10) = ' ' then 'T' else digitChar (m % 10)) = digitChar (m % 10) :=
  ite_space_digitChar _ (Nat.mod_lt _ (by norm_num))

theorem ite_space_dash : (if '-' = ' ' then 'T' else '-') = '-' := rfl

theorem ite_space_colon : (if ':' = ' ' then 'T' else ':') = ':' := rfl

theorem ite_space_zc : (if 'Z' = ' ' then 'T' else 'Z') = 'Z' := rfl

theorem ite_space_tc : (if 'T' = ' ' then 'T' else 'T') = 'T' := rfl

theorem ite_space_sp : (if ' ' = ' ' then 'T' else ' ') = 'T' := rfl

theorem fromiso_shape (y1 y2 y3 y4 m1 m2 d1 d2 h1 h2 n1 n2 s1 s2 : Char) :
    fromiso [y1, y2, y3, y4, '-', m1, m2, '-', d1, d2, 'T',
      h1, h2, ':', n1, n2, ':', s1, s2]
      = mkDT y1 y2 y3 y4 m1 m2 d1 d2 h1 h2 n1 n2 s1 s2 := by
  rfl

theorem fromiso_shapeZ (y1 y2 y3 y4 m1 m2 d1 d2 h1 h2 n1 n2 s1 s2 : Char) :
    fromiso [y1, y2, y3, y4, '-', m1, m2, '-', d1, d2, 'T',
      h1, h2, ':', n1, n2, ':', s1, s2, 'Z']
      = mkDT y1 y2 y3 y4 m1 m2 d1 d2 h1 h2 n1 n2 s1 s2 := by
  rfl

theorem mkDT_pads (t : DT) (hv : validDT t) :
    mkDT (digitChar (t.year / 1000)) (digitChar (t.year / 100 % 10))
      (digitChar (t.year / 10 % 10)) (digitChar (t.year % 10))
      (digitChar (t.month / 10)) (digitChar (t.month % 10))
      (digitChar (t.day / 10)) (digitChar (t.day % 10))
      (digitChar (t.hour / 10)) (digitChar (t.hour % 10))
      (digitChar (t.minute / 10)) (digitChar (t.minute % 10))
      (digitChar (t.second / 10)) (digitChar (t.second % 10)) = some t := by
  obtain ⟨hy1, hy2, hmo1, hmo2, hd1, hd2, hh, hmi, hs⟩ := hv
  have hy' : t.year / 1000 < 10 := by omega
  have hmo' : t.month / 10 < 10 := by omega
  have hd' : t.day / 10 < 10 := by omega
  have hh' : t.hour / 10 < 10 := by omega
  have hmi' : t.minute / 10 < 10 := by omega
  have hs' : t.second / 10 < 10 := by omega
  unfold mkDT parse4 parse2
  rw [digit?_digitChar _ hy', digit?_digitChar _ hmo', digit?_digitChar _ hd',
    digit?_digitChar _ hh', digit?_digitChar _ hmi', digit?_digitChar _ hs']
  simp only [digit?_digitChar_mod]
  have hyrec : 1000 * (t.year / 1000) + 100 * (t.year / 100 % 10)
      + 10 * (t.year / 10 % 10) + t.year % 10 = t.year := by omega
  have hmorec : 10 * (t.month / 10) + t.month % 10 = t.month := by omega
  have hdrec : 10 * (t.day / 10) + t.day % 10 = t.day := by omega
  have hhrec : 10 * (t.hour / 10) + t.hour % 10 = t.hour := by omega
  have hmirec : 10 * (t.minute / 10) + t.minute % 10 = t.minute := by omega
  have hsrec : 10 * (t.second / 10) + t.second % 10 = t.second := by omega
  simp only [hyrec, hmorec, hdrec, hhrec, hmirec, hsrec]
  have hok : fieldsOk t.year t.month t.day t.hour t.minute t.second = true := by
    simp only [fieldsOk, Bool.and_eq_true, decide_eq_true_eq]
    omega
  simp [hok]

theorem parse_iso_isoRender (t : DT) (sep : Char) (z : Bool)
    (hv : validDT t) (hsep : sep = ' ' ∨ sep = 'T') :
    parse_iso (some (isoRender t sep z)) = some t := by
  have hne : isoRender t sep z ≠ "" := by
    intro h
    have h2 := congrArg String.data h
    simp [isoRender, pad4c] at h2
  show (if isoRender t sep z = "" then none
    else fromiso ((isoRender t sep z).data.map (fun c => if c = ' ' then 'T' else c))) = some t
  rw [if_neg hne]
  show fromiso ((pad4c t.year ++ '-' :: (pad2c t.month ++ '-' :: (pad2c t.day
    ++ sep :: (pad2c t.hour ++ ':' :: (pad2c t.minute ++ ':' :: (pad2c t.second
    ++ (if z then ['Z'] else []))))))).map (fun c => if c = ' ' then 'T' else c)) = some t
  have hy' : t.year / 1000 < 10 := by
    obtain ⟨hy1, hy2, rest⟩ := hv
    omega
  have hmo' : t.month / 10 < 10 := by
    obtain ⟨h1, h2, h3, h4, rest⟩ := hv
    omega
  have hd' : t.day / 10 < 10 := by
    obtain ⟨h1, h2, h3, h4, h5, h6, rest⟩ := hv
    omega
  have hh' : t.hour / 10 < 10 := by
    obtain ⟨h1, h2, h3, h4, h5, h6, h7, h8, h9⟩ := hv
    omega
  have hmi' : t.minute / 10 < 10 := by
    obtain ⟨h1, h2, h3, h4, h5, h6, h7, h8, h9⟩ := hv
    omega
  have hs' : t.second / 10 < 10 := by
    obtain ⟨h1, h2, h3, h4, h5, h6, h7, h8, h9⟩ := hv
    omega
  rcases hsep with rfl | rfl <;> cases z <;>
    · simp only [pad4c, pad2c, List.cons_append, List.nil_append, if_true, if_false,
        List.map_cons, List.map_nil, Bool.false_eq_true, ite_false, ite_true,
        ite_space_digitChar _ hy', ite_space_digitChar _ hmo', ite_space_digitChar _ hd',
        ite_space_digitChar _ hh', ite_space_digitChar _ hmi', ite_space_digitChar _ hs',
        ite_space_digitChar_mod, ite_space_dash, ite_space_colon, ite_space_zc,
        ite_space_tc, ite_space_sp]
      first
        | rw [fromiso_shape]; exact mkDT_pads t hv
        | rw [fromiso_shapeZ]; exact mkDT_pads t hv

/-- C8: a start/end string with space or `'T'` as separator and an
optional trailing `'Z'` parses successfully (so the time filter is
applied with it), and a string that fails to parse contributes no
filter bound — the endpoint behaves exactly as if that parameter were
absent, still producing a well-formed feature list. -/
theorem claim_C8_parse_policy :
    (∀ (t : DT) (sep : Char) (z : Bool), validDT t → (sep = ' ' ∨ sep = 'T') →
      parse_iso (some (isoRender t sep z)) = some t)
    ∧ (∀ (feats : List Feature) (sStr eStr : Option String), parse_iso sStr = none →
        api_traffic_feats feats sStr eStr = api_traffic_feats feats none eStr)
    ∧ (∀ (feats : List Feature) (sStr eStr : Option String), parse_iso eStr = none →
        api_traffic_feats feats sStr eStr = api_traffic_feats feats sStr none) := by
  refine ⟨fun t sep z hv hsep => parse_iso_isoRender t sep z hv hsep, ?_, ?_⟩
  · intro feats sStr eStr hs
    unfold api_traffic_feats
    rw [hs]
    rfl
  · intro feats sStr eStr he
    unfold api_traffic_feats
    rw [he]
    rfl

/-- Witness for C8: the space-separated, `Z`-suffixed rendering of
2024-01-01 08:00:00 parses to that datetime, and an unparseable start
string filters exactly like an absent one. -/
theorem claim_C8_parse_policy_witness :
    parse_iso (some (isoRender ⟨2024, 1, 1, 8, 0, 0⟩ ' ' true)) = some ⟨2024, 1, 1, 8, 0, 0⟩
    ∧ api_traffic_feats [] (some "notadate") none = api_traffic_feats [] none none :=
  ⟨claim_C8_parse_policy.1 ⟨2024, 1, 1, 8, 0, 0⟩ ' ' true (by norm_num [validDT]) (Or.inl rfl),
   claim_C8_parse_policy.2.1 [] (some "notadate") none (by rfl)⟩

end Dashbord
